import Mathlib

/-!
Verification development for the multi-agent IT incident response system.

Shallow embedding of the core protocol code:
  * `src/it_incident_response/protocols/a2a.py`  (task / message model)
  * `src/it_incident_response/protocols/mcp.py`  (tool host)
  * `src/it_incident_response/models/incident.py` (incident store)
  * `src/it_incident_response/models/diagnostic.py` (diagnostic report store)
  * `src/it_incident_response/agents/base.py` (agent runtime)
  * `src/it_incident_response/agents/coordinator.py` (coordinator dispatcher)
  * `src/it_incident_response/agents/diagnostic.py` (diagnostic dispatcher)

Modelling conventions, used uniformly below:
  * Python runtime values flowing through untyped dictionaries are embedded as
    the inductive `JValue`.
  * An uncaught Python exception is embedded as `Except.error` with a short
    description of the exception class; functions that cannot raise are plain.
  * `datetime.datetime.now()` is an external clock, passed in as a `Nat`
    argument `now`; `str(uuid.uuid4())` is an external injective supply of
    fresh identifiers, passed in as a seed `uid : Nat` from which the fixed
    generator `uuidGen` draws positionally, in the order the source draws
    fresh ids.
  * Python `dict` objects keyed by strings are embedded as insertion-ordered
    association lists with the update operation `setA` (update in place,
    append when absent), matching dict semantics.
-/

/-- Embedding of a Python runtime value (the contents of untyped dicts,
message parts and tool results). -/
inductive JValue where
  | null : JValue
  | boolv (b : Bool) : JValue
  | str (s : String) : JValue
  | num (q : ℚ) : JValue
  | arr (elems : List JValue) : JValue
  | obj (fields : List (String × JValue)) : JValue

/-- ASCII lowering of one character, as used by Python `str.lower` on the
ASCII strings handled by this program. -/
def pyCharLower (c : Char) : Char :=
  if 'A' ≤ c ∧ c ≤ 'Z' then Char.ofNat (c.toNat + 32) else c

/-- Python `str.lower`, restricted to ASCII (every string the program lowers
is ASCII). -/
def pyLower (s : String) : String :=
  ⟨s.data.map pyCharLower⟩

/-- p is a leading segment of the second list. -/
def leadSeg : List Char → List Char → Bool
  | [], _ => true
  | _ :: _, [] => false
  | p :: ps, c :: cs => p = c && leadSeg ps cs

/-- Python substring containment `pat in hay` on lists of characters. -/
def hasSubList : List Char → List Char → Bool
  | hay, pat =>
    leadSeg pat hay ||
      (match hay with
       | [] => false
       | _ :: t => hasSubList t pat)

/-- Python substring containment `pat in hay` on strings. -/
def strHasSub (hay pat : String) : Bool :=
  hasSubList hay.data pat.data

/-- Ordered association-list lookup (Python `d[k]` / `k in d` on a dict). -/
def getA {α : Type} : List (String × α) → String → Option α
  | [], _ => none
  | (k', v) :: rest, k => if k' = k then some v else getA rest k

/-- Ordered association-list update: Python `d[k] = v` (update in place,
append when the key is absent). -/
def setA {α : Type} : List (String × α) → String → α → List (String × α)
  | [], k, v => [(k, v)]
  | (k', v') :: rest, k, v =>
    if k' = k then (k, v) :: rest else (k', v') :: setA rest k v

@[simp] theorem getA_setA_self {α : Type} (l : List (String × α)) (k : String) (v : α) :
    getA (setA l k v) k = some v := by
  induction l with
  | nil => simp [setA, getA]
  | cons hd tl ih =>
    by_cases h : hd.1 = k <;> simp [setA, getA, h, ih]

/-- Python truthiness of an embedded value. -/
def jTruthy : JValue → Bool
  | .null => false
  | .boolv b => b
  | .str s => !s.isEmpty
  | .num q => q ≠ 0
  | .arr es => !es.isEmpty
  | .obj fs => !fs.isEmpty

/-- Python `x == k` where `k` is a string literal: true only when `x` is an
equal string, false otherwise (never raises). -/
def jEqStr : JValue → String → Bool
  | .str s, k => s = k
  | _, _ => false

/-- Python membership `k in x` for a string literal `k`: key lookup on a
dict, element equality on a list, substring test on a string, `TypeError`
on non-container values. -/
def pyIn (k : String) : JValue → Except String Bool
  | .obj fs => .ok ((getA fs k).isSome)
  | .arr es => .ok (es.any (fun e => jEqStr e k))
  | .str s => .ok (strHasSub s k)
  | _ => .error "TypeError"

/-- Python indexing `x[k]` with a string key: dict lookup (`KeyError` when
absent), `TypeError` on anything that is not a dict. -/
def pyIndex (x : JValue) (k : String) : Except String JValue :=
  match x with
  | .obj fs =>
    match getA fs k with
    | some v => .ok v
    | none => .error "KeyError"
  | _ => .error "TypeError"

/-- Python `x.get(k, d)`: defaulted dict lookup; `AttributeError` when `x`
is not a dict. -/
def pyGetD (x : JValue) (k : String) (d : JValue) : Except String JValue :=
  match x with
  | .obj fs => .ok ((getA fs k).getD d)
  | _ => .error "AttributeError"

/-- Python `x.lower()` and other string-method access: `AttributeError`
unless `x` is a string. -/
def pyStr : JValue → Except String String
  | .str s => .ok s
  | _ => .error "AttributeError"

/-- Using an embedded value as a dict key: strings are the only keys ever
stored by the program, any other hashable value simply fails every lookup,
and unhashable values (lists, dicts) raise `TypeError`. -/
def pyKey : JValue → Except String (Option String)
  | .str s => .ok (some s)
  | .arr _ => .error "TypeError"
  | .obj _ => .error "TypeError"
  | _ => .ok none

/-- Python iteration over an embedded value: list elements, string
characters, dict keys; `TypeError` otherwise. -/
def jIter : JValue → Except String (List JValue)
  | .arr es => .ok es
  | .str s => .ok (s.data.map (fun c => .str ⟨[c]⟩))
  | .obj fs => .ok (fs.map (fun kv => .str kv.1))
  | _ => .error "TypeError"

/-- Rendering used by f-string interpolation; the exact text never matters
to any claim, only its placement inside response messages. -/
def jRepr : JValue → String
  | .null => "None"
  | .boolv true => "True"
  | .boolv false => "False"
  | .str s => s
  | .num _ => "number"
  | .arr _ => "list"
  | .obj _ => "dict"

/-- The external supply of fresh `uuid.uuid4()` strings: draw `k` from the
seed `uid` of the current invocation. -/
def uuidGen (uid k : Nat) : String :=
  "uuid-" ++ toString uid ++ "-" ++ toString k

@[simp] theorem except_bind_ok {α β : Type} (a : α) (f : α → Except String β) :
    (Except.ok a : Except String α) >>= f = f a := rfl

@[simp] theorem except_bind_error {α β : Type} (e : String) (f : α → Except String β) :
    (Except.error e : Except String α) >>= f = Except.error e := rfl

/-! ## A2A protocol model (protocols/a2a.py) -/

/-- Content types of message parts (`PartType`, a2a.py lines 11-16). -/
inductive PartType where
  | text
  | json
  | file
  | html
deriving DecidableEq

/-- A part within an A2A message (`MessagePart`, a2a.py lines 53-58). -/
structure MessagePart where
  part_id : String
  content_type : PartType
  content : JValue

/-- A message in the A2A protocol (`A2AMessage`, a2a.py lines 68-73). -/
structure A2AMessage where
  message_id : String
  role : String
  parts : List MessagePart

/-- `A2AMessage.add_text_part` (a2a.py lines 75-85); the fresh part id is
supplied by the uuid oracle. -/
def A2AMessage.add_text_part (m : A2AMessage) (pid : String) (text : String) : A2AMessage :=
  { m with parts := m.parts ++ [⟨pid, PartType.text, JValue.str text⟩] }

/-- `A2AMessage.add_json_part` (a2a.py lines 87-97). -/
def A2AMessage.add_json_part (m : A2AMessage) (pid : String) (data : JValue) : A2AMessage :=
  { m with parts := m.parts ++ [⟨pid, PartType.json, data⟩] }

/-- Task lifecycle states (`TaskState`, a2a.py lines 107-114). -/
inductive TaskState where
  | submitted
  | working
  | input_required
  | completed
  | failed
  | canceled
deriving DecidableEq

/-- A task in the A2A protocol (`A2ATask`, a2a.py lines 116-124). -/
structure A2ATask where
  task_id : String
  state : TaskState
  messages : List A2AMessage
  artifacts : List JValue
  created_at : Nat
  updated_at : Nat

/-- `A2ATask.add_message` (a2a.py lines 126-129): append the message and
refresh the update timestamp. -/
def A2ATask.add_message (t : A2ATask) (m : A2AMessage) (now : Nat) : A2ATask :=
  { t with messages := t.messages ++ [m], updated_at := now }

/-- `A2ATask.update_state` (a2a.py lines 131-134): set the state and refresh
the update timestamp.  The source performs no validation of the requested
transition. -/
def A2ATask.update_state (t : A2ATask) (new_state : TaskState) (now : Nat) : A2ATask :=
  { t with state := new_state, updated_at := now }

/-- Modelled from the spec: the legal transition graph of section 4.1.  No
corresponding check exists anywhere in the source; this definition exists
only to compare the source behavior against the specified edge set. -/
def legalEdge : TaskState → TaskState → Bool
  | .submitted, .working => true
  | .working, .completed => true
  | .working, .input_required => true
  | .working, .failed => true
  | .submitted, .canceled => true
  | .working, .canceled => true
  | .input_required, .canceled => true
  | _, _ => false

/-! ## Agent runtime (agents/base.py) -/

/-- The per-agent task store (`A2AAgent.tasks`, base.py line 19).  The agent
card and MCP session fields play no role in the task-level claims. -/
structure AgentState where
  tasks : List (String × A2ATask)

/-- `A2AAgent.create_task` (base.py lines 31-41): allocate a task in state
`SUBMITTED` whose message list holds exactly the seed message.  The source
performs no validation of the seed message; the fresh task id is supplied
by the uuid oracle. -/
def create_task (a : AgentState) (newId : String) (now : Nat)
    (initial_message : A2AMessage) : String × AgentState :=
  let task : A2ATask :=
    { task_id := newId
    , state := TaskState.submitted
    , messages := [initial_message]
    , artifacts := []
    , created_at := now
    , updated_at := now }
  (newId, { a with tasks := setA a.tasks newId task })

/-- `A2AAgent.send_message` (base.py lines 49-62): unknown task ids yield
`None`; otherwise the inbound message is appended, then the polymorphic
dispatcher `_process_message` runs (it may raise, modelled by
`Except.error`), and the updated task is stored and returned.  The
dispatcher also returns its agent-specific environment of type `σ`. -/
def send_message {σ : Type} (process : A2ATask → A2AMessage → Except String (A2ATask × σ))
    (a : AgentState) (task_id : String) (now : Nat) (message : A2AMessage) :
    Except String (Option (A2ATask × σ × AgentState)) :=
  match getA a.tasks task_id with
  | none => .ok none
  | some task => do
    let task := task.add_message message now
    let (task, s) ← process task message
    .ok (some (task, s, { a with tasks := setA a.tasks task_id task }))

/-! ## MCP tool host (protocols/mcp.py) -/

/-- Tool categories (`MCPToolType`, mcp.py lines 10-19). -/
inductive MCPToolType where
  | database
  | log_analyzer
  | system_monitor
  | knowledge_base
  | alert_system
  | ticketing_system
  | deployment_system
  | communication
deriving DecidableEq

/-- A registered tool (`MCPTool`, mcp.py lines 21-30).  Concrete provider
subclasses carry mutable attributes and override `execute`; the embedding
models the attributes as one `state : JValue` and the override as `exec`,
which consumes the current state and the call parameters and either returns
a result together with the successor state or raises. -/
structure MCPTool where
  tool_id : String
  tool_type : MCPToolType
  name : String
  description : String
  api_endpoint : String
  auth_required : Bool
  parameters : JValue
  state : JValue
  exec : JValue → JValue → Except String (JValue × JValue)

/-- One session record (`MCPHost.create_session`, mcp.py lines 61-71). -/
structure MCPSession where
  agent_id : String
  created_at : Nat
  active : Bool

/-- The MCP host (`MCPHost`, mcp.py lines 48-54). -/
structure MCPHost where
  tools : List (String × MCPTool)
  sessions : List (String × MCPSession)

/-- `MCPHost.register_tool` (mcp.py lines 56-59). -/
def MCPHost.register_tool (h : MCPHost) (tool : MCPTool) : MCPHost :=
  { h with tools := setA h.tools tool.tool_id tool }

/-- `MCPHost.create_session` (mcp.py lines 61-71); the fresh session id is
supplied by the uuid oracle. -/
def MCPHost.create_session (h : MCPHost) (newId : String) (agent_id : String) (now : Nat) :
    String × MCPHost :=
  (newId,
   { h with sessions := setA h.sessions newId ⟨agent_id, now, true⟩ })

/-- The structured error result `{status: "error", message: msg}`. -/
def errResult (msg : String) : JValue :=
  .obj [("status", .str "error"), ("message", .str msg)]

/-- `MCPHost.execute_tool` (mcp.py lines 73-94): validate the session exists
and is active, validate the tool is registered, then invoke the provider
under a catch-all handler that converts any raised fault into the
structured error result.  The function is total: no branch propagates a
provider fault to the caller. -/
def MCPHost.execute_tool (h : MCPHost) (session_id tool_id : String) (parameters : JValue) :
    JValue × MCPHost :=
  match getA h.sessions session_id with
  | none => (errResult "Invalid session ID", h)
  | some s =>
    if !s.active then
      (errResult "Session is not active", h)
    else
      match getA h.tools tool_id with
      | none => (errResult "Tool not found", h)
      | some tool =>
        match tool.exec tool.state (if jTruthy parameters then parameters else .obj []) with
        | .ok (result, st) =>
          (result, { h with tools := setA h.tools tool_id { tool with state := st } })
        | .error e => (errResult e, h)

/-- `MCPHost.end_session` (mcp.py lines 117-125): unknown sessions yield
`False`; otherwise the session is marked inactive. -/
def MCPHost.end_session (h : MCPHost) (session_id : String) : Bool × MCPHost :=
  match getA h.sessions session_id with
  | none => (false, h)
  | some s =>
    (true, { h with sessions := setA h.sessions session_id { s with active := false } })

/-! ## Incident store (models/incident.py) -/

/-- `IncidentSeverity` (incident.py lines 10-15). -/
inductive IncidentSeverity where
  | low
  | medium
  | high
  | critical
deriving DecidableEq

/-- The `IncidentSeverity(value)` constructor: exact match on the enum
string values, `ValueError` (modelled as `none`) otherwise. -/
def parseSeverity : String → Option IncidentSeverity
  | "low" => some .low
  | "medium" => some .medium
  | "high" => some .high
  | "critical" => some .critical
  | _ => none

/-- `IncidentStatus` (incident.py lines 17-23). -/
inductive IncidentStatus where
  | investigating
  | identified
  | resolving
  | resolved
  | closed
deriving DecidableEq

/-- The `IncidentStatus(value)` constructor: exact match on the enum string
values, `ValueError` (modelled as `none`) otherwise. -/
def parseStatus : String → Option IncidentStatus
  | "investigating" => some .investigating
  | "identified" => some .identified
  | "resolving" => some .resolving
  | "resolved" => some .resolved
  | "closed" => some .closed
  | _ => none

/-- An incident record (`Incident.__init__`, incident.py lines 28-41).
Fields the source never constrains to a type are embedded as `JValue`. -/
structure Incident where
  incident_id : String
  title : JValue
  description : JValue
  severity : IncidentSeverity
  affected_systems : JValue
  tags : JValue
  status : IncidentStatus
  reported_time : Nat
  updated_time : Nat
  assigned_to : Option String
  notes : List (JValue × Nat)

/-- The module-level `_incidents` dict (incident.py line 81). -/
def IncidentStore : Type := List (String × Incident)

/-- `Incident.add_note` (incident.py lines 51-57). -/
def Incident.add_note (i : Incident) (note : JValue) (now : Nat) : Incident :=
  { i with notes := i.notes ++ [(note, now)], updated_time := now }

/-- `Incident.update_status` (incident.py lines 43-49): set the status,
refresh the timestamp and, when the note is truthy, append it. -/
def Incident.update_status (i : Incident) (new_status : IncidentStatus)
    (note : JValue) (now : Nat) : Incident :=
  let i := { i with status := new_status, updated_time := now }
  if jTruthy note then i.add_note note now else i

/-- `create_incident` (incident.py lines 83-104): an invalid severity string
falls back to `MEDIUM` via the `except ValueError` handler (a non-string
severity would instead raise inside `severity.lower()`, which is why the
argument is a `String` here); `tags or []` replaces a falsy tags value by
the empty list.  The fresh incident id comes from the uuid oracle. -/
def create_incident (store : IncidentStore) (newId : String) (now : Nat)
    (title description : JValue) (severity : String) (affected_systems tags : JValue) :
    String × IncidentStore :=
  let severity_enum := (parseSeverity (pyLower severity)).getD IncidentSeverity.medium
  let incident : Incident :=
    { incident_id := newId
    , title := title
    , description := description
    , severity := severity_enum
    , affected_systems := affected_systems
    , tags := if jTruthy tags then tags else .arr []
    , status := IncidentStatus.investigating
    , reported_time := now
    , updated_time := now
    , assigned_to := none
    , notes := [] }
  (newId, setA store newId incident)

/-- `get_incident_by_id` (incident.py lines 106-110), applied to an already
resolved dict key (`none` models a key that matches no stored incident). -/
def get_incident_by_id (store : IncidentStore) (key : Option String) : Option Incident :=
  key.bind (getA store)

/-- `update_incident_status` (incident.py lines 112-124): unknown ids and
invalid status strings are rejected with `False` before any mutation. -/
def update_incident_status (store : IncidentStore) (incident_id : String)
    (status : String) (note : JValue) (now : Nat) : Bool × IncidentStore :=
  match getA store incident_id with
  | none => (false, store)
  | some i =>
    match parseStatus (pyLower status) with
    | none => (false, store)
    | some st => (true, setA store incident_id (i.update_status st note now))

/-- `assign_incident` (incident.py lines 126-132). -/
def assign_incident (store : IncidentStore) (incident_id : String) (assignee : String)
    (now : Nat) : Bool × IncidentStore :=
  match getA store incident_id with
  | none => (false, store)
  | some i => (true, setA store incident_id { i with assigned_to := some assignee, updated_time := now })

/-- `add_incident_note` (incident.py lines 134-140). -/
def add_incident_note (store : IncidentStore) (incident_id : String) (note : JValue)
    (now : Nat) : Bool × IncidentStore :=
  match getA store incident_id with
  | none => (false, store)
  | some i => (true, setA store incident_id (i.add_note note now))

/-- `Incident.to_dict` (incident.py lines 64-78), used when an incident
snapshot is embedded into a response message. -/
def Incident.to_dict (i : Incident) : JValue :=
  .obj
    [ ("incident_id", .str i.incident_id)
    , ("title", i.title)
    , ("description", i.description)
    , ("severity", .str (match i.severity with
        | .low => "low" | .medium => "medium" | .high => "high" | .critical => "critical"))
    , ("affected_systems", i.affected_systems)
    , ("tags", i.tags)
    , ("status", .str (match i.status with
        | .investigating => "investigating" | .identified => "identified"
        | .resolving => "resolving" | .resolved => "resolved" | .closed => "closed"))
    , ("reported_time", .num i.reported_time)
    , ("updated_time", .num i.updated_time)
    , ("assigned_to", match i.assigned_to with | none => .null | some a => .str a)
    , ("notes", .arr (i.notes.map (fun n => .obj [("content", n.1), ("timestamp", .num n.2)])))
    ]

/-! ## Diagnostic report store (models/diagnostic.py) -/

/-- `DiagnosticStatus` (diagnostic.py lines 6-11). -/
inductive DiagnosticStatus where
  | pending
  | in_progress
  | completed
  | failed
deriving DecidableEq

/-- The `DiagnosticStatus(value)` constructor: exact match on the enum
string values, `ValueError` (modelled as `none`) otherwise. -/
def parseDiagStatus : String → Option DiagnosticStatus
  | "pending" => some .pending
  | "in_progress" => some .in_progress
  | "completed" => some .completed
  | "failed" => some .failed
  | _ => none

/-- A diagnostic report (`DiagnosticReport.__init__`, diagnostic.py lines
16-27).  Evidence entries and knowledge-base references are stored without
type constraints in the source, so they are embedded as `JValue`. -/
structure DiagnosticReport where
  report_id : String
  incident_id : String
  status : DiagnosticStatus
  created_time : Nat
  updated_time : Nat
  completed_time : Option Nat
  root_cause : Option String
  confidence : Option ℚ
  evidence : List JValue
  recommended_actions : List String
  knowledge_base_references : List JValue

/-- The module-level `_diagnostic_reports` dict (diagnostic.py line 75). -/
def ReportStore : Type := List (String × DiagnosticReport)

/-- `create_diagnostic_report` (diagnostic.py lines 77-82); the fresh report
id comes from the uuid oracle. -/
def create_diagnostic_report (store : ReportStore) (newId : String) (incident_id : String)
    (now : Nat) : String × ReportStore :=
  let report : DiagnosticReport :=
    { report_id := newId
    , incident_id := incident_id
    , status := DiagnosticStatus.pending
    , created_time := now
    , updated_time := now
    , completed_time := none
    , root_cause := none
    , confidence := none
    , evidence := []
    , recommended_actions := []
    , knowledge_base_references := [] }
  (newId, setA store newId report)

/-- `DiagnosticReport.update_status` (diagnostic.py lines 29-35): the
completion timestamp is recorded when the new status is `COMPLETED`. -/
def DiagnosticReport.update_status (r : DiagnosticReport) (new_status : DiagnosticStatus)
    (now : Nat) : DiagnosticReport :=
  let r := { r with status := new_status, updated_time := now }
  if new_status = DiagnosticStatus.completed then { r with completed_time := some now } else r

/-- `update_report_status` (diagnostic.py lines 97-109). -/
def update_report_status (store : ReportStore) (report_id : String) (status : String)
    (now : Nat) : Bool × ReportStore :=
  match getA store report_id with
  | none => (false, store)
  | some r =>
    match parseDiagStatus (pyLower status) with
    | none => (false, store)
    | some st => (true, setA store report_id (r.update_status st now))

/-- `set_report_root_cause` (diagnostic.py lines 111-117). -/
def set_report_root_cause (store : ReportStore) (report_id : String) (root_cause : String)
    (confidence : ℚ) (now : Nat) : Bool × ReportStore :=
  match getA store report_id with
  | none => (false, store)
  | some r =>
    (true, setA store report_id
      { r with root_cause := some root_cause, confidence := some confidence, updated_time := now })

/-- `add_report_evidence` (diagnostic.py lines 119-125). -/
def add_report_evidence (store : ReportStore) (report_id : String) (evidence : JValue)
    (now : Nat) : Bool × ReportStore :=
  match getA store report_id with
  | none => (false, store)
  | some r => (true, setA store report_id { r with evidence := r.evidence ++ [evidence], updated_time := now })

/-- `add_report_action` (diagnostic.py lines 127-133). -/
def add_report_action (store : ReportStore) (report_id : String) (action : String)
    (now : Nat) : Bool × ReportStore :=
  match getA store report_id with
  | none => (false, store)
  | some r => (true, setA store report_id { r with recommended_actions := r.recommended_actions ++ [action], updated_time := now })

/-- `add_report_reference` (diagnostic.py lines 135-141). -/
def add_report_reference (store : ReportStore) (report_id : String) (reference : JValue)
    (now : Nat) : Bool × ReportStore :=
  match getA store report_id with
  | none => (false, store)
  | some r => (true, setA store report_id { r with knowledge_base_references := r.knowledge_base_references ++ [reference], updated_time := now })

/-- `get_report_by_id` (diagnostic.py lines 84-88), on a resolved key. -/
def get_report_by_id (store : ReportStore) (report_id : String) : Option DiagnosticReport :=
  getA store report_id

/-- `get_report_by_incident_id` (diagnostic.py lines 90-95): linear scan
comparing each stored `incident_id` against the query value with Python
equality. -/
def get_report_by_incident_id (store : ReportStore) (incident_id : JValue) :
    Option DiagnosticReport :=
  (store.find? (fun kv => jEqStr incident_id kv.2.incident_id)).map (·.2)

/-- `DiagnosticReport.to_dict` (diagnostic.py lines 58-72). -/
def DiagnosticReport.to_dict (r : DiagnosticReport) : JValue :=
  .obj
    [ ("report_id", .str r.report_id)
    , ("incident_id", .str r.incident_id)
    , ("status", .str (match r.status with
        | .pending => "pending" | .in_progress => "in_progress"
        | .completed => "completed" | .failed => "failed"))
    , ("created_time", .num r.created_time)
    , ("updated_time", .num r.updated_time)
    , ("completed_time", match r.completed_time with | none => .null | some n => .num n)
    , ("root_cause", match r.root_cause with | none => .null | some s => .str s)
    , ("confidence", match r.confidence with | none => .null | some q => .num q)
    , ("evidence", .arr r.evidence)
    , ("recommended_actions", .arr (r.recommended_actions.map .str))
    , ("knowledge_base_references", .arr r.knowledge_base_references)
    ]

/-! ## Coordinator agent dispatcher (agents/coordinator.py)

The coordinator calls `execute_mcp_tool` for ticketing and alerting at
lines 99, 148, 163, 199 and 223; every one of those calls discards its
return value and `execute_mcp_tool` itself never raises (base.py lines
75-81 and the catch-all in mcp.py lines 88-94), so those calls have no
effect on the task, the incident store, or control flow, and the embedding
omits them. -/

/-- Truthiness of an optional collaborating-agent id (`if
self.diagnostic_agent_id:` style guards treat `None` and the empty string
as absent). -/
def optTruthy : Option String → Bool
  | none => false
  | some s => !s.isEmpty

/-- The enum value string of an incident status. -/
def statusValue : IncidentStatus → String
  | .investigating => "investigating"
  | .identified => "identified"
  | .resolving => "resolving"
  | .resolved => "resolved"
  | .closed => "closed"

/-- The incident snapshot embedded in a response json part (`None` when the
incident is absent). -/
def optIncidentJ : Option Incident → JValue
  | none => .null
  | some i => i.to_dict

/-- Collaborating agent ids held by the coordinator (coordinator.py lines
59-66). -/
structure CoordCtx where
  diagnostic_agent_id : Option String
  resolution_agent_id : Option String

/-- `_assign_to_diagnostic_agent` (coordinator.py lines 183-205): assign the
incident and add a note; the alert-system call is discarded side traffic. -/
def assignToDiagnostic (ctx : CoordCtx) (store : IncidentStore) (incident_id : String)
    (now : Nat) : IncidentStore :=
  if !optTruthy ctx.diagnostic_agent_id then store
  else
    match getA store incident_id with
    | none => store
    | some _ =>
      let assignee := "diagnostic-agent:" ++ ctx.diagnostic_agent_id.getD ""
      let store := (assign_incident store incident_id assignee now).2
      (add_incident_note store incident_id
        (.str "Assigned to diagnostic agent for analysis") now).2

/-- `_assign_to_resolution_agent` (coordinator.py lines 207-229). -/
def assignToResolution (ctx : CoordCtx) (store : IncidentStore) (incident_id : String)
    (now : Nat) : IncidentStore :=
  if !optTruthy ctx.resolution_agent_id then store
  else
    match getA store incident_id with
    | none => store
    | some _ =>
      let assignee := "resolution-agent:" ++ ctx.resolution_agent_id.getD ""
      let store := (assign_incident store incident_id assignee now).2
      (add_incident_note store incident_id
        (.str "Assigned to resolution agent for implementation") now).2

/-- Extraction of the request envelope (coordinator.py lines 72-77,
identical code in diagnostic.py lines 54-59): the content of the first
JSON part, `{}` when no JSON part exists. -/
def firstJsonContent (msg : A2AMessage) : JValue :=
  match msg.parts.find? (fun p => p.content_type == PartType.json) with
  | some p => p.content
  | none => .obj []

/-- The `create_incident` capability branch (coordinator.py lines 86-110). -/
def coordRespondCreate (ctx : CoordCtx) (store : IncidentStore) (uid now : Nat)
    (request_data : JValue) (response : A2AMessage) :
    Except String (A2AMessage × IncidentStore) := do
  let incident_data ← pyIndex request_data "create_incident"
  let title ← pyGetD incident_data "title" (.str "Unknown incident")
  let description ← pyGetD incident_data "description" (.str "")
  let severityJ ← pyGetD incident_data "severity" (.str "medium")
  let affected ← pyGetD incident_data "affected_systems" (.arr [])
  let tags ← pyGetD incident_data "tags" (.arr [])
  let severity ← pyStr severityJ
  let (incident_id, store) :=
    create_incident store (uuidGen uid 1) now title description severity affected tags
  let store :=
    if optTruthy ctx.diagnostic_agent_id then assignToDiagnostic ctx store incident_id now
    else store
  let response :=
    (response.add_text_part (uuidGen uid 2) ("Incident created with ID: " ++ incident_id)
      ).add_json_part (uuidGen uid 3)
        (.obj [("incident", optIncidentJ (get_incident_by_id store (some incident_id)))])
  .ok (response, store)

/-- The `get_incident_status` capability branch (coordinator.py lines
112-121). -/
def coordRespondGet (store : IncidentStore) (uid _now : Nat)
    (request_data : JValue) (response : A2AMessage) :
    Except String (A2AMessage × IncidentStore) := do
  let sub ← pyIndex request_data "get_incident_status"
  let incident_idJ ← pyGetD sub "incident_id" .null
  let key ← pyKey incident_idJ
  match get_incident_by_id store key with
  | some incident =>
    .ok ((response.add_text_part (uuidGen uid 1)
            ("Current status of incident " ++ jRepr incident_idJ ++ ": "
              ++ statusValue incident.status)
          ).add_json_part (uuidGen uid 2) (.obj [("incident", incident.to_dict)]),
         store)
  | none =>
    .ok (response.add_text_part (uuidGen uid 1)
          ("Incident " ++ jRepr incident_idJ ++ " not found"),
         store)

/-- The `update_incident` capability branch (coordinator.py lines 123-174).
The two early returns at lines 131-133 and 143-145 append the response and
transition to `COMPLETED` exactly as the shared exit at lines 180-181
does; the branch therefore only computes the response and the store. -/
def coordRespondUpdate (ctx : CoordCtx) (store : IncidentStore) (uid now : Nat)
    (request_data : JValue) (response : A2AMessage) :
    Except String (A2AMessage × IncidentStore) := do
  let sub ← pyIndex request_data "update_incident"
  let incident_idJ ← pyGetD sub "incident_id" .null
  let key ← pyKey incident_idJ
  match key, get_incident_by_id store key with
  | some incident_id, some _ => do
    let hasStatus ← pyIn "status" sub
    let step ←
      if hasStatus then do
        let statusJ ← pyIndex sub "status"
        let notes ← pyGetD sub "notes" .null
        let status ← pyStr statusJ
        let res := update_incident_status store incident_id status notes now
        if !res.1 then
          pure (Sum.inl (response.add_text_part (uuidGen uid 1)
                  ("Failed to update incident status to " ++ status)))
        else
          pure (Sum.inr
            (if status = "identified" && optTruthy ctx.resolution_agent_id then
              assignToResolution ctx res.2 incident_id now
            else res.2))
      else
        pure ((Sum.inr store : Sum A2AMessage IncidentStore))
    match step with
    | Sum.inl failResponse => .ok (failResponse, store)
    | Sum.inr store =>
      let updated := get_incident_by_id store (some incident_id)
      .ok ((response.add_text_part (uuidGen uid 1)
              ("Incident " ++ jRepr incident_idJ ++ " updated")
            ).add_json_part (uuidGen uid 2) (.obj [("incident", optIncidentJ updated)]),
           store)
  | _, _ =>
    .ok (response.add_text_part (uuidGen uid 1)
          ("Incident " ++ jRepr incident_idJ ++ " not found"),
         store)

/-- Capability dispatch of the coordinator (`_process_message`,
coordinator.py lines 68-181), reduced to the response message and the
incident store it produces.  Every exit path of the source appends exactly
the computed response and then transitions the task to `COMPLETED`, so the
task bookkeeping lives in `coordinatorProcess` below. -/
def coordRespond (ctx : CoordCtx) (store : IncidentStore) (uid now : Nat)
    (request_data : JValue) : Except String (A2AMessage × IncidentStore) := do
  let response : A2AMessage := ⟨uuidGen uid 0, "agent", []⟩
  let isCreate ← pyIn "create_incident" request_data
  if isCreate then
    coordRespondCreate ctx store uid now request_data response
  else
    let isGet ← pyIn "get_incident_status" request_data
    if isGet then
      coordRespondGet store uid now request_data response
    else
      let isUpdate ← pyIn "update_incident" request_data
      if isUpdate then
        coordRespondUpdate ctx store uid now request_data response
      else
        .ok (response.add_text_part (uuidGen uid 1) "Unknown request", store)

/-- `IncidentCoordinatorAgent._process_message` (coordinator.py lines
68-181): transition to `WORKING` on entry (line 70), compute the response,
append it and transition to `COMPLETED` (lines 131-133, 143-145 and
180-181 all perform this same exit sequence).  The trailing list records
the `update_state` calls of the invocation, in order. -/
def coordinatorProcess (ctx : CoordCtx) (store : IncidentStore) (uid now : Nat)
    (t : A2ATask) (msg : A2AMessage) :
    Except String (A2ATask × IncidentStore × List TaskState) := do
  let t := t.update_state TaskState.working now
  let (response, store) ← coordRespond ctx store uid now (firstJsonContent msg)
  .ok ((t.add_message response now).update_state TaskState.completed now,
       store, [TaskState.working, TaskState.completed])

/-! ## Diagnostic agent dispatcher (agents/diagnostic.py)

The three `execute_mcp_tool` calls feed the analysis, so the dispatcher is
parametrised by an oracle `mcp : String → JValue → JValue` giving the
result the tool host returns for a tool id and a parameter dict
(`execute_tool` never raises, mcp.py lines 73-94).  The `time.sleep(1)` at
line 97 only delays and is dropped. -/

/-- Python falsiness of the running `root_cause` variable (`None` or the
empty string). -/
def rcFalsy : Option String → Bool
  | none => true
  | some s => s.isEmpty

/-- `any(pat in pattern.lower() for pattern in pats)` (diagnostic.py lines
111-123): short-circuiting scan; a non-string pattern reached before a
match raises `AttributeError` at `.lower()`. -/
def pyAnyContains (pat : String) : List JValue → Except String Bool
  | [] => .ok false
  | v :: rest => do
    let s ← pyStr v
    if strHasSub (pyLower s) pat then .ok true else pyAnyContains pat rest

/-- The evidence collected from the anomaly loop (diagnostic.py lines
133-134): `anomaly.get("details", "System anomaly detected")` for each
anomaly, in order. -/
def evidenceFromAnomalies : List JValue → Except String (List JValue)
  | [] => .ok []
  | a :: rest => do
    let d ← pyGetD a "details" (.str "System anomaly detected")
    let ds ← evidenceFromAnomalies rest
    .ok (d :: ds)

/-- `any(k in anomaly.get("type", "") for anomaly in anomalies)`
(diagnostic.py lines 138 and 141). -/
def pyAnyTypeIn (k : String) : List JValue → Except String Bool
  | [] => .ok false
  | a :: rest => do
    let tv ← pyGetD a "type" (.str "")
    let b ← pyIn k tv
    if b then .ok true else pyAnyTypeIn k rest

/-- Root-cause extraction from the log-analysis result (diagnostic.py lines
100-126): the initial `(None, 0.0, [])` triple, refined by the first
matching log-pattern heuristic. -/
def logPhase (log_data : JValue) : Except String (Option String × ℚ × List JValue) := do
  let status ← pyGetD log_data "status" .null
  if jEqStr status "success" then
    let dataJ ← pyGetD log_data "data" (.obj [])
    let patternsJ ← pyGetD dataJ "log_patterns" (.arr [])
    if jTruthy patternsJ then
      let pats ← jIter patternsJ
      let hasTimeout ← pyAnyContains "connection timeout" pats
      if hasTimeout then
        .ok (some "Database connection timeout due to network latency spike", (92 : ℚ)/100,
             [.str "Multiple connection timeout errors in application logs"])
      else
        let hasMemory ← pyAnyContains "memory" pats
        if hasMemory then
          .ok (some "Memory leak in authentication service", (87 : ℚ)/100,
               [.str "Increasing memory usage pattern observed in logs"])
        else
          let hasBreaker ← pyAnyContains "circuit breaker" pats
          if hasBreaker then
            .ok (some "API Gateway circuit breaker triggered due to backend service failures",
                 (90 : ℚ)/100, [.str "Circuit breaker activation events in API Gateway logs"])
          else
            let hasDisk ← pyAnyContains "disk" pats
            if hasDisk then
              .ok (some "Critical disk space shortage on storage nodes", (95 : ℚ)/100,
                   [.str "Disk space warnings in system logs"])
            else .ok (none, 0, [])
    else .ok (none, 0, [])
  else .ok (none, 0, [])

/-- Evidence and fallback root cause from the system-monitor result
(diagnostic.py lines 128-143). -/
def sysPhase (system_data : JValue) (rc : Option String) (conf : ℚ) (ev : List JValue) :
    Except String (Option String × ℚ × List JValue) := do
  let status ← pyGetD system_data "status" .null
  if jEqStr status "success" then
    let dataJ ← pyGetD system_data "data" (.obj [])
    let anomaliesJ ← pyGetD dataJ "anomalies" (.arr [])
    if jTruthy anomaliesJ then
      let anomalies ← jIter anomaliesJ
      let details ← evidenceFromAnomalies anomalies
      let ev := ev ++ details
      if rcFalsy rc then
        let hasLatency ← pyAnyTypeIn "network_latency_high" anomalies
        if hasLatency then
          .ok (some "Network latency spike between application and database servers",
               (85 : ℚ)/100, ev)
        else
          let hasSlowDb ← pyAnyTypeIn "database_connection_slow" anomalies
          if hasSlowDb then
            .ok (some "Slow database connections due to connection pool exhaustion",
                 (88 : ℚ)/100, ev)
          else .ok (rc, conf, ev)
      else .ok (rc, conf, ev)
    else .ok (rc, conf, ev)
  else .ok (rc, conf, ev)

/-- Generic fallback and the always-appended time-correlation evidence
(diagnostic.py lines 145-152). -/
def genericPhase (rc : Option String) (conf : ℚ) (ev : List JValue) :
    String × ℚ × List JValue :=
  let step :=
    if rcFalsy rc then
      ("Intermittent system performance degradation", (70 : ℚ)/100,
       ev ++ [JValue.str "Multiple error patterns with no clear primary cause"])
    else (rc.getD "", conf, ev)
  (step.1, step.2.1, step.2.2 ++ [.str "Errors coincide with period of increased system load"])

/-- Recommended actions keyed on the root cause (diagnostic.py lines
154-194). -/
def actionsFor (root_cause : String) : List String :=
  if strHasSub (pyLower root_cause) "database connection timeout" then
    [ "Increase database connection timeout parameters"
    , "Implement connection pooling with proper sizing"
    , "Monitor network latency between app and database servers"
    , "Consider adding retry logic with exponential backoff"
    , "Review database performance and tuning" ]
  else if strHasSub (pyLower root_cause) "memory leak" then
    [ "Review recent code changes in authentication service"
    , "Check for improper resource cleanup in session management"
    , "Implement memory usage monitoring and alerting"
    , "Restart service during low-traffic period"
    , "Apply memory leak patch from development team" ]
  else if strHasSub (pyLower root_cause) "api gateway" then
    [ "Check health of backend services"
    , "Adjust circuit breaker thresholds if needed"
    , "Implement fallback mechanisms for critical services"
    , "Scale up backend services to handle current load"
    , "Review API Gateway configuration" ]
  else if strHasSub (pyLower root_cause) "disk space" then
    [ "Clean temporary files and logs"
    , "Expand storage capacity for affected nodes"
    , "Implement data retention policies"
    , "Move non-critical data to secondary storage"
    , "Set up proactive disk space monitoring" ]
  else
    [ "Monitor system for additional error patterns"
    , "Review recent system changes and deployments"
    , "Temporarily increase resources for affected services"
    , "Implement additional logging for better diagnosis"
    , "Schedule comprehensive system review" ]

/-- Knowledge-base references to attach (diagnostic.py lines 210-213). -/
def kbPhase (kb_data : JValue) : Except String (List JValue) := do
  let status ← pyGetD kb_data "status" .null
  if jEqStr status "success" then
    let dataJ ← pyGetD kb_data "data" (.obj [])
    let articlesJ ← pyGetD dataJ "articles" (.arr [])
    jIter articlesJ
  else .ok []

/-- The evidence loop (diagnostic.py lines 198-199). -/
def addEvidences (store : ReportStore) (rid : String) (evs : List JValue) (now : Nat) :
    ReportStore :=
  evs.foldl (fun s e => (add_report_evidence s rid e now).2) store

/-- The recommended-action loop (diagnostic.py lines 201-202). -/
def addActions (store : ReportStore) (rid : String) (acts : List String) (now : Nat) :
    ReportStore :=
  acts.foldl (fun s a => (add_report_action s rid a now).2) store

/-- The knowledge-base reference loop (diagnostic.py lines 211-213). -/
def addReferences (store : ReportStore) (rid : String) (arts : List JValue) (now : Nat) :
    ReportStore :=
  arts.foldl (fun s a => (add_report_reference s rid a now).2) store

/-- The report snapshot embedded in the response json part. -/
def optReportJ : Option DiagnosticReport → JValue
  | none => .null
  | some r => r.to_dict

/-- The body of the `analyze_incident` branch once the incident is found
(diagnostic.py lines 80-223). -/
def diagAnalyze (mcp : String → JValue → JValue) (incidents : IncidentStore)
    (reports : ReportStore) (uid now : Nat) (incident_idJ : JValue)
    (incident_id : String) (inc : Incident) (response : A2AMessage) :
    Except String (A2AMessage × IncidentStore × ReportStore) := do
  let (report_id, reports) := create_diagnostic_report reports (uuidGen uid 1) incident_id now
  let reports := (update_report_status reports report_id "in_progress" now).2
  let log_data := mcp "log-analyzer"
    (.obj [("incident_id", incident_idJ), ("time_range", .str "1h"), ("log_level", .str "WARN")])
  let system_data := mcp "system-monitor"
    (.obj [("incident_id", incident_idJ), ("servers", inc.affected_systems)])
  let lp ← logPhase log_data
  let sp ← sysPhase system_data lp.1 lp.2.1 lp.2.2
  let gp := genericPhase sp.1 sp.2.1 sp.2.2
  let root_cause := gp.1
  let confidence := gp.2.1
  let evidence := gp.2.2
  let recommended_actions := actionsFor root_cause
  let reports := (set_report_root_cause reports report_id root_cause confidence now).2
  let reports := addEvidences reports report_id evidence now
  let reports := addActions reports report_id recommended_actions now
  let kb_data := mcp "knowledge-base"
    (.obj [("query", .str root_cause), ("max_results", .num 3)])
  let articles ← kbPhase kb_data
  let reports := addReferences reports report_id articles now
  let reports := (update_report_status reports report_id "completed" now).2
  let incidents := (add_incident_note incidents incident_id
    (.str ("Diagnostic analysis completed. Root cause: " ++ root_cause)) now).2
  let response :=
    (response.add_text_part (uuidGen uid 2) ("Analysis complete for incident " ++ incident_id)
      ).add_json_part (uuidGen uid 3)
        (.obj [("diagnostic_report", optReportJ (get_report_by_id reports report_id))])
  .ok (response, incidents, reports)

/-- Capability dispatch of the diagnostic agent (`_process_message`,
diagnostic.py lines 50-243), reduced to the response message and the two
stores it touches; the task bookkeeping lives in `diagProcess` below. -/
def diagRespond (mcp : String → JValue → JValue) (incidents : IncidentStore)
    (reports : ReportStore) (uid now : Nat) (request_data : JValue) :
    Except String (A2AMessage × IncidentStore × ReportStore) := do
  let response : A2AMessage := ⟨uuidGen uid 0, "agent", []⟩
  let isAnalyze ← pyIn "analyze_incident" request_data
  if isAnalyze then
    let sub ← pyIndex request_data "analyze_incident"
    let incident_idJ ← pyGetD sub "incident_id" .null
    let key ← pyKey incident_idJ
    match key, get_incident_by_id incidents key with
    | some incident_id, some inc =>
      diagAnalyze mcp incidents reports uid now incident_idJ incident_id inc response
    | _, _ =>
      .ok (response.add_text_part (uuidGen uid 1)
            ("Incident " ++ jRepr incident_idJ ++ " not found"), incidents, reports)
  else
    let isGetReport ← pyIn "get_diagnostic_report" request_data
    if isGetReport then
      let sub ← pyIndex request_data "get_diagnostic_report"
      let incident_idJ ← pyGetD sub "incident_id" .null
      match get_report_by_incident_id reports incident_idJ with
      | some rep =>
        .ok ((response.add_text_part (uuidGen uid 1)
               ("Diagnostic report for incident " ++ jRepr incident_idJ)
             ).add_json_part (uuidGen uid 2) (.obj [("diagnostic_report", rep.to_dict)]),
             incidents, reports)
      | none =>
        .ok (response.add_text_part (uuidGen uid 1)
              ("No diagnostic report found for incident " ++ jRepr incident_idJ),
             incidents, reports)
    else
      .ok (response.add_text_part (uuidGen uid 1) "Unknown request", incidents, reports)

/-- `DiagnosticAgent._process_message` (diagnostic.py lines 50-243):
transition to `WORKING` on entry (line 52), compute the response, append
it and transition to `COMPLETED` (the early exit at lines 76-78 performs
the same sequence as the shared exit at lines 242-243).  The trailing list
records the `update_state` calls of the invocation, in order. -/
def diagProcess (mcp : String → JValue → JValue) (incidents : IncidentStore)
    (reports : ReportStore) (uid now : Nat) (t : A2ATask) (msg : A2AMessage) :
    Except String (A2ATask × (IncidentStore × ReportStore) × List TaskState) := do
  let t := t.update_state TaskState.working now
  let (response, incidents, reports) ←
    diagRespond mcp incidents reports uid now (firstJsonContent msg)
  .ok ((t.add_message response now).update_state TaskState.completed now,
       (incidents, reports), [TaskState.working, TaskState.completed])

/-! ## Claim C1: task state machine hardening -/

/-- Claim C1, counterexample.  The claim states that a transition outside
the legal edge set of section 4.1 — in particular any transition out of a
terminal state — is rejected with `InvalidTransition`, leaving the state
unchanged.  The source `A2ATask.update_state` performs no check: starting
from the terminal state `COMPLETED`, requesting the illegal transition to
`WORKING` succeeds and changes the state. -/
theorem c1_counterexample :
    legalEdge TaskState.completed TaskState.working = false ∧
    (A2ATask.update_state ⟨"t", TaskState.completed, [], [], 0, 0⟩ TaskState.working 1).state
      = TaskState.working ∧
    TaskState.working ≠ TaskState.completed :=
  ⟨rfl, rfl, by decide⟩

/-- Claim C1, amended.  The state is always one of the six defined values
(enforced by the `TaskState` type), but `update_state` applies any
requested transition unconditionally: it sets the state to the requested
value for every current state, including the terminal ones, refreshing only
the update timestamp; no `InvalidTransition` rejection exists in the
source. -/
theorem c1_update_state_trust_all (t : A2ATask) (s : TaskState) (now : Nat) :
    (t.update_state s now).state = s ∧
    (t.update_state s now).messages = t.messages ∧
    (t.update_state s now).updated_at = now :=
  ⟨rfl, rfl, rfl⟩

/-! ## Claim C3: task creation -/

/-- Claim C3, counterexample.  The claim states that `create_task` fails
with `MalformedMessage` on a seed message with zero parts.  The source
(base.py lines 31-41) performs no such check: a zero-part seed is accepted,
and the allocated task is stored in state `SUBMITTED` holding exactly that
seed. -/
theorem c3_counterexample :
    (create_task ⟨[]⟩ "t1" 5 ⟨"m0", "user", []⟩).1 = "t1" ∧
    getA (create_task ⟨[]⟩ "t1" 5 ⟨"m0", "user", []⟩).2.tasks "t1"
      = some ⟨"t1", TaskState.submitted, [⟨"m0", "user", []⟩], [], 5, 5⟩ :=
  ⟨rfl, by simp [create_task, getA_setA_self]⟩

/-- Claim C3, amended.  For every seed message — with any number of parts,
including zero — `create_task` allocates a fresh task in state `SUBMITTED`
whose message list contains exactly the seed message; no `MalformedMessage`
rejection exists in the source. -/
theorem c3_create_task_submitted_seed (a : AgentState) (newId : String) (now : Nat)
    (seed : A2AMessage) :
    (create_task a newId now seed).1 = newId ∧
    getA (create_task a newId now seed).2.tasks newId
      = some ⟨newId, TaskState.submitted, [seed], [], now, now⟩ := by
  exact ⟨rfl, by simp [create_task, getA_setA_self]⟩

/-! ## Claim C9: invalid incident status strings are rejected -/

/-- Claim C9: for every stored incident, `update_incident_status` with a
status string whose lowering is outside the five valid enum values is
rejected with `False` and returns the store unchanged, so the incident
record — status, notes, assignment and timestamps — is untouched. -/
theorem c9_invalid_status_rejected (store : IncidentStore) (incident_id status : String)
    (note : JValue) (now : Nat) (inc : Incident)
    (hfound : getA store incident_id = some inc)
    (hbad : parseStatus (pyLower status) = none) :
    update_incident_status store incident_id status note now = (false, store) := by
  simp [update_incident_status, hfound, hbad]

/-- A concrete stored incident used by closed evaluations. -/
def sampleIncident : Incident :=
  { incident_id := "i1"
  , title := .str "DB issue"
  , description := .str ""
  , severity := IncidentSeverity.high
  , affected_systems := .arr [.str "db-1"]
  , tags := .arr []
  , status := IncidentStatus.investigating
  , reported_time := 0
  , updated_time := 0
  , assigned_to := none
  , notes := [] }

/-- Claim C9, witness: updating the stored incident `i1` with the invalid
status string `bogus` returns `False` and leaves the store unchanged. -/
theorem c9_witness :
    update_incident_status [("i1", sampleIncident)] "i1" "bogus" .null 7
      = (false, [("i1", sampleIncident)]) :=
  c9_invalid_status_rejected [("i1", sampleIncident)] "i1" "bogus" .null 7 sampleIncident
    rfl rfl

/-! ## Claim C10: incident creation is total in the severity argument -/

/-- Claim C10: for every severity string whose lowering is not one of the
four valid enum values, `create_incident` does not reject: the
`except ValueError` fallback stores the incident with severity `MEDIUM`,
status `INVESTIGATING`, empty notes and no assignee. -/
theorem c10_invalid_severity_defaults (store : IncidentStore) (newId : String) (now : Nat)
    (title description : JValue) (severity : String) (affected tags : JValue)
    (hbad : parseSeverity (pyLower severity) = none) :
    (create_incident store newId now title description severity affected tags).1 = newId ∧
    getA (create_incident store newId now title description severity affected tags).2 newId
      = some
        { incident_id := newId
        , title := title
        , description := description
        , severity := IncidentSeverity.medium
        , affected_systems := affected
        , tags := if jTruthy tags then tags else .arr []
        , status := IncidentStatus.investigating
        , reported_time := now
        , updated_time := now
        , assigned_to := none
        , notes := [] } := by
  refine ⟨rfl, ?_⟩
  simp [create_incident, hbad, getA_setA_self]

/-- Claim C10, witness: creating an incident with the invalid severity
string `bogus` succeeds and stores severity `MEDIUM`. -/
theorem c10_witness :
    (create_incident [] "i2" 3 (.str "t") (.str "d") "bogus" (.arr []) (.arr [])).1 = "i2" ∧
    getA (create_incident [] "i2" 3 (.str "t") (.str "d") "bogus" (.arr []) (.arr [])).2 "i2"
      = some
        { incident_id := "i2"
        , title := .str "t"
        , description := .str "d"
        , severity := IncidentSeverity.medium
        , affected_systems := .arr []
        , tags := if jTruthy (.arr []) then .arr [] else .arr []
        , status := IncidentStatus.investigating
        , reported_time := 3
        , updated_time := 3
        , assigned_to := none
        , notes := [] } :=
  c10_invalid_severity_defaults [] "i2" 3 (.str "t") (.str "d") "bogus" (.arr []) (.arr [])
    rfl

/-! ## Claim C5: provider faults are confined to the tool host boundary -/

/-- Claim C5: for every registered tool and valid active session, a fault
raised by the provider `execute` is caught inside `execute_tool` and
converted to the structured result `{status: "error", message: msg}`; the
function returns normally, so the fault never propagates to the calling
agent. -/
theorem c5_provider_fault_converted (h : MCPHost) (session_id tool_id : String)
    (params : JValue) (s : MCPSession) (tool : MCPTool) (msg : String)
    (hs : getA h.sessions session_id = some s)
    (hactive : s.active = true)
    (ht : getA h.tools tool_id = some tool)
    (hfault : tool.exec tool.state (if jTruthy params then params else .obj []) = .error msg) :
    h.execute_tool session_id tool_id params = (errResult msg, h) := by
  simp [MCPHost.execute_tool, hs, hactive, ht, hfault]

/-- A registered tool whose provider always raises. -/
def faultyTool : MCPTool :=
  { tool_id := "t1"
  , tool_type := MCPToolType.log_analyzer
  , name := "Faulty"
  , description := ""
  , api_endpoint := ""
  , auth_required := true
  , parameters := .obj []
  , state := .num 41
  , exec := fun _ _ => .error "boom" }

/-- A host with one active session and the faulty tool registered. -/
def hostWithFaultyTool : MCPHost :=
  { tools := [("t1", faultyTool)]
  , sessions := [("s1", ⟨"agent-1", 0, true⟩)] }

/-- Claim C5, witness: executing the faulty tool through an active session
returns the structured error result and the host survives. -/
theorem c5_witness :
    hostWithFaultyTool.execute_tool "s1" "t1" .null
      = (errResult "boom", hostWithFaultyTool) :=
  c5_provider_fault_converted hostWithFaultyTool "s1" "t1" .null ⟨"agent-1", 0, true⟩
    faultyTool "boom" rfl rfl rfl rfl

/-! ## Claim C6: tool execution after session end -/

/-- Claim C6: once `end_session` succeeds, the inactive-session guard of
`execute_tool` fires before the tool is even looked up: every subsequent
`execute_tool` on that session returns the fixed
`{status: "error", message: "Session is not active"}` result — independent
of any registered provider `execute`, which is never invoked — and returns
the host unchanged, so the internal state of every registered tool is
untouched.  `end_session` itself only flips the session flag, so the tool
registry is also unchanged by the session end. -/
theorem c6_execute_after_end_session (h h' : MCPHost) (session_id tool_id : String)
    (params : JValue)
    (hend : h.end_session session_id = (true, h')) :
    h'.execute_tool session_id tool_id params
      = (errResult "Session is not active", h') ∧
    h'.tools = h.tools := by
  unfold MCPHost.end_session at hend
  cases hs : getA h.sessions session_id with
  | none =>
    rw [hs] at hend
    cases hend
  | some s =>
    rw [hs] at hend
    have hh' : h' = { h with sessions := setA h.sessions session_id { s with active := false } } := by
      have := congrArg Prod.snd hend
      simpa using this.symm
    subst hh'
    refine ⟨?_, rfl⟩
    simp [MCPHost.execute_tool, getA_setA_self]

/-- A host with the faulty tool registered and one active session, used to
close claim C6: the session is ended, then execution is attempted. -/
def hostForSessionEnd : MCPHost :=
  { tools := [("t1", faultyTool)]
  , sessions := [("s1", ⟨"agent-1", 4, true⟩)] }

/-- Claim C6, witness: after ending session `s1`, executing tool `t1`
through it returns the inactive-session error and leaves the host — in
particular the tool registry and every tool state — unchanged. -/
theorem c6_witness :
    (MCPHost.execute_tool
        { tools := [("t1", faultyTool)]
        , sessions := [("s1", ⟨"agent-1", 4, false⟩)] }
        "s1" "t1" (.num 1)
      = (errResult "Session is not active",
         { tools := [("t1", faultyTool)]
         , sessions := [("s1", ⟨"agent-1", 4, false⟩)] })) ∧
    ({ tools := [("t1", faultyTool)]
     , sessions := [("s1", ⟨"agent-1", 4, false⟩)] } : MCPHost).tools
      = hostForSessionEnd.tools := by
  have hend : hostForSessionEnd.end_session "s1"
      = (true,
         { tools := [("t1", faultyTool)]
         , sessions := [("s1", ⟨"agent-1", 4, false⟩)] }) := by
    simp [MCPHost.end_session, hostForSessionEnd, getA, setA]
  exact c6_execute_after_end_session hostForSessionEnd _ "s1" "t1" (.num 1) hend

/-! ## Claim C2: message ordering across two send_message calls -/

/-- Claim C2, amended.  The claim lists the task messages after two
sequential `send_message` calls as `[seed, response1, response2]`; the
source, however, appends each inbound message before dispatching
(base.py line 56), so for any dispatcher that appends exactly one response
message per invocation the list is, in call order,
`[seed, inbound1, response1, inbound2, response2]` — message ordering is
never altered, but the inbound messages are part of the history. -/
theorem c2_send_message_order {σ : Type}
    (process : A2ATask → A2AMessage → Except String (A2ATask × σ))
    (hp : ∀ t m t' s, process t m = .ok (t', s) → ∃ r, t'.messages = t.messages ++ [r])
    (a0 : AgentState) (newId : String) (n0 n1 n2 : Nat) (seed m1 m2 : A2AMessage)
    (t1 t2 : A2ATask) (s1 s2 : σ) (a2 a3 : AgentState)
    (h1 : send_message process (create_task a0 newId n0 seed).2 newId n1 m1
            = .ok (some (t1, s1, a2)))
    (h2 : send_message process a2 newId n2 m2 = .ok (some (t2, s2, a3))) :
    ∃ r1 r2, t2.messages = [seed, m1, r1, m2, r2] := by
  have hget1 : getA (create_task a0 newId n0 seed).2.tasks newId
      = some ⟨newId, TaskState.submitted, [seed], [], n0, n0⟩ := by
    simp [create_task, getA_setA_self]
  unfold send_message at h1
  rw [hget1] at h1
  simp only [] at h1
  cases hp1 : process
      (A2ATask.add_message ⟨newId, TaskState.submitted, [seed], [], n0, n0⟩ m1 n1) m1 with
  | error e => rw [hp1] at h1; simp at h1
  | ok ts =>
    rw [hp1] at h1
    obtain ⟨t1', s1'⟩ := ts
    simp only [except_bind_ok, Except.ok.injEq, Option.some.injEq, Prod.mk.injEq] at h1
    obtain ⟨ht1, hs1, ha2⟩ := h1
    rw [ht1] at hp1 ha2
    obtain ⟨r1, hr1⟩ := hp _ _ _ _ hp1
    have hmsg1 : t1.messages = [seed, m1, r1] := by
      simpa [A2ATask.add_message] using hr1
    unfold send_message at h2
    rw [← ha2] at h2
    rw [show getA (setA (create_task a0 newId n0 seed).2.tasks newId t1) newId = some t1 from
      getA_setA_self _ _ _] at h2
    simp only [] at h2
    cases hp2 : process (t1.add_message m2 n2) m2 with
    | error e => rw [hp2] at h2; simp at h2
    | ok ts2 =>
      rw [hp2] at h2
      obtain ⟨t2', s2'⟩ := ts2
      simp only [except_bind_ok, Except.ok.injEq, Option.some.injEq, Prod.mk.injEq] at h2
      obtain ⟨ht2, hs2, ha3⟩ := h2
      rw [ht2] at hp2
      obtain ⟨r2, hr2⟩ := hp _ _ _ _ hp2
      refine ⟨r1, r2, ?_⟩
      simpa [A2ATask.add_message, hmsg1] using hr2

/-- A dispatcher that appends exactly one fixed response message, used to
instantiate the ordering theorem on concrete input. -/
def echoProcess : A2ATask → A2AMessage → Except String (A2ATask × Unit) :=
  fun t _ => .ok (t.add_message ⟨"r0", "agent", []⟩ 9, ())

/-- Claim C2, witness: running two sequential `send_message` calls against
the one-response dispatcher on concrete messages yields the five-element
history `[seed, inbound1, response1, inbound2, response2]`. -/
theorem c2_witness :
    ∃ r1 r2,
      (⟨"t1", TaskState.submitted,
        [⟨"m0", "user", []⟩, ⟨"m1", "user", []⟩, ⟨"r0", "agent", []⟩,
         ⟨"m2", "user", []⟩, ⟨"r0", "agent", []⟩], [], 0, 9⟩ : A2ATask).messages
        = [⟨"m0", "user", []⟩, ⟨"m1", "user", []⟩, r1, ⟨"m2", "user", []⟩, r2] :=
  c2_send_message_order echoProcess
    (by
      intro t m t' s h
      refine ⟨⟨"r0", "agent", []⟩, ?_⟩
      simp only [echoProcess, Except.ok.injEq, Prod.mk.injEq] at h
      rw [← h.1]
      rfl)
    ⟨[]⟩ "t1" 0 1 2 ⟨"m0", "user", []⟩ ⟨"m1", "user", []⟩ ⟨"m2", "user", []⟩
    ⟨"t1", TaskState.submitted,
      [⟨"m0", "user", []⟩, ⟨"m1", "user", []⟩, ⟨"r0", "agent", []⟩], [], 0, 9⟩
    ⟨"t1", TaskState.submitted,
      [⟨"m0", "user", []⟩, ⟨"m1", "user", []⟩, ⟨"r0", "agent", []⟩,
       ⟨"m2", "user", []⟩, ⟨"r0", "agent", []⟩], [], 0, 9⟩
    () ()
    ⟨[("t1", ⟨"t1", TaskState.submitted,
      [⟨"m0", "user", []⟩, ⟨"m1", "user", []⟩, ⟨"r0", "agent", []⟩], [], 0, 9⟩)]⟩
    ⟨[("t1", ⟨"t1", TaskState.submitted,
      [⟨"m0", "user", []⟩, ⟨"m1", "user", []⟩, ⟨"r0", "agent", []⟩,
       ⟨"m2", "user", []⟩, ⟨"r0", "agent", []⟩], [], 0, 9⟩)]⟩
    rfl rfl

/-- Coordinator with no collaborating agents, empty incident store, for
closed runs. -/
def c2ctx : CoordCtx := ⟨none, none⟩

/-- The dispatcher of the coordinator agent as a `send_message` processor
over an empty incident store. -/
def c2proc : A2ATask → A2AMessage → Except String (A2ATask × IncidentStore × List TaskState) :=
  fun t m => coordinatorProcess c2ctx [] 0 0 t m

/-- Agent state after `create_task` with the seed message `m0`. -/
def c2agent1 : AgentState := (create_task ⟨[]⟩ "t1" 0 ⟨"m0", "user", []⟩).2

/-- First `send_message` call. -/
def c2step1 : Except String (Option (A2ATask × (IncidentStore × List TaskState) × AgentState)) :=
  send_message c2proc c2agent1 "t1" 0 ⟨"m1", "user", []⟩

/-- Agent state after the first call. -/
def c2agent2 : AgentState :=
  match c2step1 with
  | .ok (some (_, _, a)) => a
  | _ => ⟨[]⟩

/-- Second `send_message` call. -/
def c2step2 : Except String (Option (A2ATask × (IncidentStore × List TaskState) × AgentState)) :=
  send_message c2proc c2agent2 "t1" 0 ⟨"m2", "user", []⟩

/-- Claim C2, counterexample.  The claim states that after a seed and two
sequential `send_message` calls the task message list equals
`[seed, response1, response2]`, a three-element list.  Running the
coordinator dispatcher on a concrete task, the history holds three
messages after the first call and five after the second — the source also
appends each inbound message — so the list cannot equal the claimed
three-element list. -/
theorem c2_counterexample :
    c2step1.map (Option.map (fun x => x.1.messages.length)) = .ok (some 3) ∧
    c2step2.map (Option.map (fun x => x.1.messages.length)) = .ok (some 5) ∧
    (5 : Nat) ≠ 3 :=
  ⟨rfl, rfl, by decide⟩

/-! ## Shared dispatcher lemmas -/

/-- Every successful coordinator dispatch builds its response by first
appending a text part: the response message starts with a text part in
every branch, including the unrecognized-capability branch. -/
theorem coordRespond_ok_head_text (ctx : CoordCtx) (store : IncidentStore) (uid now : Nat)
    (request_data : JValue) (r : A2AMessage) (store' : IncidentStore)
    (h : coordRespond ctx store uid now request_data = .ok (r, store')) :
    ∃ p rest, r.parts = p :: rest ∧ p.content_type = PartType.text := by
  simp only [coordRespond, coordRespondCreate, coordRespondGet, coordRespondUpdate,
    bind, Except.bind, pure, Except.pure] at h
  repeat' (split at h)
  all_goals cases h
  all_goals exact ⟨_, _, rfl, rfl⟩

/-! ## Claim C4: one response, transitions, terminal COMPLETED -/

/-- Claim C4, counterexample.  The claim states that one dispatcher
invocation performs exactly one state transition.  Dispatching a
recognized `get_incident_status` request (here a recognized domain-level
failure: the incident store is empty) performs two `update_state` calls —
to `WORKING` on entry and to `COMPLETED` on exit — as the recorded
transition trace of length two shows. -/
theorem c4_counterexample :
    (coordinatorProcess ⟨none, none⟩ [] 0 0 ⟨"t", TaskState.submitted, [], [], 0, 0⟩
        ⟨"m", "user",
          [⟨"p", PartType.json,
            .obj [("get_incident_status", .obj [("incident_id", .str "nope")])]⟩]⟩
      ).map (fun out => out.2.2)
      = .ok [TaskState.working, TaskState.completed] ∧
    ([TaskState.working, TaskState.completed]).length = 2 ∧ (2 : Nat) ≠ 1 :=
  ⟨rfl, rfl, by decide⟩

/-- Claim C4, amended.  Per dispatcher invocation that returns (does not
raise), exactly one outbound response message is appended to the task and
exactly two state transitions are performed — to `WORKING` on entry and to
`COMPLETED` on exit — for the coordinator and the diagnostic dispatcher
alike; every such invocation therefore ends in `COMPLETED`, on recognized
success as well as on recognized domain-level failure, and the `FAILED`
state is never entered. -/
theorem c4_one_response_completed :
    (∀ (ctx : CoordCtx) (store : IncidentStore) (uid now : Nat) (t : A2ATask)
        (msg : A2AMessage) (t' : A2ATask) (store' : IncidentStore) (tr : List TaskState),
        coordinatorProcess ctx store uid now t msg = .ok (t', store', tr) →
        (∃ r, t'.messages = t.messages ++ [r]) ∧
          tr = [TaskState.working, TaskState.completed] ∧
          t'.state = TaskState.completed) ∧
    (∀ (mcp : String → JValue → JValue) (incidents : IncidentStore) (reports : ReportStore)
        (uid now : Nat) (t : A2ATask) (msg : A2AMessage) (t' : A2ATask)
        (st' : IncidentStore × ReportStore) (tr : List TaskState),
        diagProcess mcp incidents reports uid now t msg = .ok (t', st', tr) →
        (∃ r, t'.messages = t.messages ++ [r]) ∧
          tr = [TaskState.working, TaskState.completed] ∧
          t'.state = TaskState.completed) := by
  constructor
  · intro ctx store uid now t msg t' store' tr h
    simp only [coordinatorProcess, bind, Except.bind] at h
    repeat' (split at h)
    all_goals cases h
    exact ⟨⟨_, rfl⟩, rfl, rfl⟩
  · intro mcp incidents reports uid now t msg t' st' tr h
    simp only [diagProcess, bind, Except.bind] at h
    repeat' (split at h)
    all_goals cases h
    exact ⟨⟨_, rfl⟩, rfl, rfl⟩

/-- Claim C4, witness: a concrete coordinator invocation on an empty task
store appends one response and records the two transitions ending in
`COMPLETED`. -/
theorem c4_witness :
    (∃ r, (⟨"t", TaskState.completed,
        [⟨uuidGen 0 0, "agent", [⟨uuidGen 0 1, PartType.text, JValue.str "Unknown request"⟩]⟩],
        [], 0, 0⟩ : A2ATask).messages
      = (⟨"t", TaskState.submitted, [], [], 0, 0⟩ : A2ATask).messages ++ [r]) ∧
    [TaskState.working, TaskState.completed] = [TaskState.working, TaskState.completed] ∧
    (⟨"t", TaskState.completed,
        [⟨uuidGen 0 0, "agent", [⟨uuidGen 0 1, PartType.text, JValue.str "Unknown request"⟩]⟩],
        [], 0, 0⟩ : A2ATask).state = TaskState.completed :=
  c4_one_response_completed.1 ⟨none, none⟩ [] 0 0 ⟨"t", TaskState.submitted, [], [], 0, 0⟩
    ⟨"m", "user", []⟩ _ [] [TaskState.working, TaskState.completed] rfl

/-! ## Claim C7: dispatcher totality -/

/-- Claim C7, counterexample.  The claim states the coordinator dispatcher
never raises on any inbound message.  A message whose JSON part carries the
number `5` makes line 86 of coordinator.py evaluate
`"create_incident" in 5`, which raises `TypeError`; the dispatcher
terminates without appending any response. -/
theorem c7_counterexample :
    coordinatorProcess ⟨none, none⟩ [] 0 0 ⟨"t", TaskState.submitted, [], [], 0, 0⟩
        ⟨"m", "user", [⟨"p", PartType.json, .num 5⟩]⟩
      = .error "TypeError" := rfl

/-- Claim C7, amended.  Whenever the coordinator dispatcher returns — which
a malformed JSON envelope (a non-dict envelope, or a capability value of
the wrong shape) can prevent by raising — it appends exactly one response
message whose first part is explanatory text.  In particular the two
branches named by the claim never raise and answer `Unknown request`: a
message with no JSON part, and a JSON request envelope naming none of the
declared capabilities. -/
theorem c7_dispatcher_totality :
    (∀ (ctx : CoordCtx) (store : IncidentStore) (uid now : Nat) (t : A2ATask)
        (msg : A2AMessage) (t' : A2ATask) (store' : IncidentStore) (tr : List TaskState),
        coordinatorProcess ctx store uid now t msg = .ok (t', store', tr) →
        ∃ r, t'.messages = t.messages ++ [r] ∧
          ∃ p rest, r.parts = p :: rest ∧ p.content_type = PartType.text) ∧
    (∀ (ctx : CoordCtx) (store : IncidentStore) (uid now : Nat) (t : A2ATask)
        (msg : A2AMessage),
        (∀ p ∈ msg.parts, p.content_type ≠ PartType.json) →
        coordinatorProcess ctx store uid now t msg
          = .ok (((t.update_state TaskState.working now).add_message
                    (A2AMessage.add_text_part ⟨uuidGen uid 0, "agent", []⟩ (uuidGen uid 1)
                      "Unknown request") now).update_state TaskState.completed now,
                 store, [TaskState.working, TaskState.completed])) ∧
    (∀ (ctx : CoordCtx) (store : IncidentStore) (uid now : Nat) (t : A2ATask)
        (msg : A2AMessage) (fields : List (String × JValue)),
        firstJsonContent msg = .obj fields →
        getA fields "create_incident" = none →
        getA fields "get_incident_status" = none →
        getA fields "update_incident" = none →
        coordinatorProcess ctx store uid now t msg
          = .ok (((t.update_state TaskState.working now).add_message
                    (A2AMessage.add_text_part ⟨uuidGen uid 0, "agent", []⟩ (uuidGen uid 1)
                      "Unknown request") now).update_state TaskState.completed now,
                 store, [TaskState.working, TaskState.completed])) := by
  refine ⟨?_, ?_, ?_⟩
  · intro ctx store uid now t msg t' store' tr h
    unfold coordinatorProcess at h
    cases hr : coordRespond ctx store uid now (firstJsonContent msg) with
    | error e => rw [hr] at h; simp at h
    | ok rs =>
      rw [hr] at h
      obtain ⟨r, s⟩ := rs
      simp only [except_bind_ok, Except.ok.injEq, Prod.mk.injEq] at h
      obtain ⟨ht, hs, htr⟩ := h
      refine ⟨r, ?_, coordRespond_ok_head_text ctx store uid now _ r s hr⟩
      rw [← ht]
      rfl
  · intro ctx store uid now t msg hnj
    have hfind : msg.parts.find? (fun p => p.content_type == PartType.json) = none := by
      rw [List.find?_eq_none]
      intro p hp
      simpa using hnj p hp
    unfold coordinatorProcess
    unfold firstJsonContent
    rw [hfind]
    rfl
  · intro ctx store uid now t msg fields hfj h1 h2 h3
    unfold coordinatorProcess
    rw [hfj]
    simp [coordRespond, pyIn, h1, h2, h3]

/-- Claim C7, witness: a message with no JSON part is answered with the
`Unknown request` response and the dispatcher returns normally. -/
theorem c7_witness :
    coordinatorProcess ⟨none, none⟩ [] 0 0 ⟨"t", TaskState.submitted, [], [], 0, 0⟩
        ⟨"m", "user", [⟨"p0", PartType.text, .str "hello"⟩]⟩
      = .ok ((((⟨"t", TaskState.submitted, [], [], 0, 0⟩ : A2ATask).update_state
                  TaskState.working 0).add_message
                (A2AMessage.add_text_part ⟨uuidGen 0 0, "agent", []⟩ (uuidGen 0 1)
                  "Unknown request") 0).update_state TaskState.completed 0,
             [], [TaskState.working, TaskState.completed]) :=
  c7_dispatcher_totality.2.1 ⟨none, none⟩ [] 0 0 ⟨"t", TaskState.submitted, [], [], 0, 0⟩
    ⟨"m", "user", [⟨"p0", PartType.text, .str "hello"⟩]⟩
    (by intro p hp; simp at hp; rw [hp]; decide)

/-! ## Lemmas for the diagnostic analysis (claim C8) -/

/-- When every pattern is a string and some pattern contains the phrase,
the short-circuiting scan returns `True`. -/
theorem pyAnyContains_map_str (pat : String) (pats : List String)
    (h : pats.any (fun p => strHasSub (pyLower p) pat) = true) :
    pyAnyContains pat (pats.map .str) = .ok true := by
  induction pats with
  | nil => simp at h
  | cons hd tl ih =>
    simp only [List.any_cons, Bool.or_eq_true] at h
    by_cases hh : strHasSub (pyLower hd) pat = true
    · simp [pyAnyContains, pyStr, hh]
    · rcases h with h | h
      · exact absurd h hh
      · simp [pyAnyContains, pyStr, hh, ih h]

/-- A successful run of the system-data phase started with an already
identified, non-empty root cause keeps the root cause and the confidence
and only appends evidence. -/
theorem sysPhase_preserves (system_data : JValue) (rc : String) (conf : ℚ)
    (ev : List JValue) (out : Option String × ℚ × List JValue)
    (hne : rc.isEmpty = false)
    (h : sysPhase system_data (some rc) conf ev = .ok out) :
    out.1 = some rc ∧ out.2.1 = conf ∧ ∃ extra, out.2.2 = ev ++ extra := by
  have hf : rcFalsy (some rc) = false := by simp [rcFalsy, hne]
  simp only [sysPhase, bind, Except.bind, hf, Bool.false_eq_true, if_false] at h
  repeat' (split at h)
  all_goals cases h
  all_goals first
    | exact ⟨rfl, rfl, _, rfl⟩
    | (refine ⟨rfl, rfl, [], ?_⟩; simp)

/-- The evidence loop only appends to the report evidence, preserving root
cause and confidence. -/
theorem addEvidences_getA (evs : List JValue) (store : ReportStore) (rid : String)
    (r : DiagnosticReport) (now : Nat) (h : getA store rid = some r) :
    ∃ r', getA (addEvidences store rid evs now) rid = some r' ∧
      r'.root_cause = r.root_cause ∧ r'.confidence = r.confidence ∧
      r'.evidence = r.evidence ++ evs := by
  induction evs generalizing store r with
  | nil => exact ⟨r, by simpa [addEvidences] using h, rfl, rfl, by simp⟩
  | cons e es ih =>
    have step : getA ((add_report_evidence store rid e now).2) rid
        = some { r with evidence := r.evidence ++ [e], updated_time := now } := by
      simp [add_report_evidence, h, getA_setA_self]
    obtain ⟨r', h1, h2, h3, h4⟩ := ih _ _ step
    refine ⟨r', ?_, h2, h3, ?_⟩
    · simpa [addEvidences, List.foldl_cons] using h1
    · simpa using h4

/-- The recommended-action loop does not affect root cause, confidence or
evidence. -/
theorem addActions_getA (acts : List String) (store : ReportStore) (rid : String)
    (r : DiagnosticReport) (now : Nat) (h : getA store rid = some r) :
    ∃ r', getA (addActions store rid acts now) rid = some r' ∧
      r'.root_cause = r.root_cause ∧ r'.confidence = r.confidence ∧
      r'.evidence = r.evidence := by
  induction acts generalizing store r with
  | nil => exact ⟨r, by simpa [addActions] using h, rfl, rfl, rfl⟩
  | cons a as ih =>
    have step : getA ((add_report_action store rid a now).2) rid
        = some { r with recommended_actions := r.recommended_actions ++ [a], updated_time := now } := by
      simp [add_report_action, h, getA_setA_self]
    obtain ⟨r', h1, h2, h3, h4⟩ := ih _ _ step
    exact ⟨r', by simpa [addActions, List.foldl_cons] using h1, h2, h3, h4⟩

/-- The knowledge-base reference loop does not affect root cause,
confidence or evidence. -/
theorem addReferences_getA (arts : List JValue) (store : ReportStore) (rid : String)
    (r : DiagnosticReport) (now : Nat) (h : getA store rid = some r) :
    ∃ r', getA (addReferences store rid arts now) rid = some r' ∧
      r'.root_cause = r.root_cause ∧ r'.confidence = r.confidence ∧
      r'.evidence = r.evidence := by
  induction arts generalizing store r with
  | nil => exact ⟨r, by simpa [addReferences] using h, rfl, rfl, rfl⟩
  | cons a as ih =>
    have step : getA ((add_report_reference store rid a now).2) rid
        = some { r with knowledge_base_references := r.knowledge_base_references ++ [a], updated_time := now } := by
      simp [add_report_reference, h, getA_setA_self]
    obtain ⟨r', h1, h2, h3, h4⟩ := ih _ _ step
    exact ⟨r', by simpa [addReferences, List.foldl_cons] using h1, h2, h3, h4⟩

/-- With a successful log-analysis result whose patterns are strings, one
of which contains the phrase, the log phase identifies the database
connection timeout root cause with confidence 0.92 and one evidence
entry. -/
theorem logPhase_timeout (pats : List String)
    (hpat : pats.any (fun p => strHasSub (pyLower p) "connection timeout") = true) :
    logPhase (.obj [("status", .str "success"),
                    ("data", .obj [("log_patterns", .arr (pats.map .str))])])
      = .ok (some "Database connection timeout due to network latency spike", (92 : ℚ)/100,
             [.str "Multiple connection timeout errors in application logs"]) := by
  cases pats with
  | nil => simp at hpat
  | cons hd tl =>
    have hrun := pyAnyContains_map_str "connection timeout" (hd :: tl) hpat
    simp only [List.map_cons] at hrun
    simp [logPhase, pyGetD, getA, jTruthy, jIter, jEqStr, hrun]

/-- A valid status update rewrites the stored report in place. -/
theorem update_report_status_getA (store : ReportStore) (rid : String) (status : String)
    (st : DiagnosticStatus) (now : Nat) (r : DiagnosticReport)
    (h : getA store rid = some r) (hp : parseDiagStatus (pyLower status) = some st) :
    getA (update_report_status store rid status now).2 rid
      = some (r.update_status st now) := by
  simp [update_report_status, h, hp, getA_setA_self]

/-- Setting the root cause rewrites the stored report in place. -/
theorem set_report_root_cause_getA (store : ReportStore) (rid : String) (rc : String)
    (conf : ℚ) (now : Nat) (r : DiagnosticReport) (h : getA store rid = some r) :
    getA (set_report_root_cause store rid rc conf now).2 rid
      = some { r with root_cause := some rc, confidence := some conf, updated_time := now } := by
  simp [set_report_root_cause, h, getA_setA_self]

/-- Claim C8: invoking `analyze_incident` on an existing incident whose
collected log patterns (the strings returned by the log-analyzer tool)
include one containing the phrase `connection timeout` completes the
dispatch and produces a stored diagnostic report whose root cause contains
`Database connection timeout`, whose confidence equals 0.92, and which has
at least one evidence entry.  The system-monitor and knowledge-base
results are arbitrary values whose processing completes (which the
repository tools, returning well-formed result dicts, always satisfy). -/
theorem c8_connection_timeout_diagnosis
    (mcp : String → JValue → JValue) (incidents : IncidentStore) (reports : ReportStore)
    (uid now : Nat) (t : A2ATask) (iid : String) (inc : Incident) (msg : A2AMessage)
    (pats : List String) (sysRes kbRes : JValue)
    (hmsg : firstJsonContent msg
      = .obj [("analyze_incident", .obj [("incident_id", .str iid)])])
    (hinc : getA incidents iid = some inc)
    (hlog : ∀ p, mcp "log-analyzer" p
      = .obj [("status", .str "success"),
              ("data", .obj [("log_patterns", .arr (pats.map .str))])])
    (hpat : pats.any (fun p => strHasSub (pyLower p) "connection timeout") = true)
    (hsys : ∀ p, mcp "system-monitor" p = sysRes)
    (hkb : ∀ p, mcp "knowledge-base" p = kbRes)
    (hsysok : ∃ out, sysPhase sysRes
        (some "Database connection timeout due to network latency spike") ((92 : ℚ)/100)
        [.str "Multiple connection timeout errors in application logs"] = .ok out)
    (hkbok : ∃ arts, kbPhase kbRes = .ok arts) :
    ∃ t' st' tr r,
      diagProcess mcp incidents reports uid now t msg = .ok (t', st', tr) ∧
      getA st'.2 (uuidGen uid 1) = some r ∧
      (∃ rc, r.root_cause = some rc ∧ strHasSub rc "Database connection timeout" = true) ∧
      r.confidence = some ((92 : ℚ)/100) ∧
      r.evidence ≠ [] := by
  obtain ⟨out, hout⟩ := hsysok
  obtain ⟨arts, harts⟩ := hkbok
  obtain ⟨o1, o2, o3⟩ := out
  obtain ⟨ho1, ho2, extra, ho3⟩ :=
    sysPhase_preserves sysRes _ _ _ _ (by decide) hout
  simp only at ho1 ho2 ho3
  subst ho1
  subst ho2
  subst ho3
  have hrespond : diagRespond mcp incidents reports uid now (firstJsonContent msg)
      = diagAnalyze mcp incidents reports uid now (.str iid) iid inc
          ⟨uuidGen uid 0, "agent", []⟩ := by
    rw [hmsg]
    simp [diagRespond, pyIn, pyIndex, pyGetD, pyKey, getA, get_incident_by_id, hinc]
  have hgen : genericPhase
      (some "Database connection timeout due to network latency spike") ((92 : ℚ)/100)
      ([JValue.str "Multiple connection timeout errors in application logs"] ++ extra)
      = ("Database connection timeout due to network latency spike", (92 : ℚ)/100,
         ([JValue.str "Multiple connection timeout errors in application logs"] ++ extra)
           ++ [.str "Errors coincide with period of increased system load"]) := rfl
  have s0 : getA (setA reports (uuidGen uid 1)
      (⟨uuidGen uid 1, iid, DiagnosticStatus.pending, now, now, none, none, none, [], [], []⟩
        : DiagnosticReport)) (uuidGen uid 1)
      = some ⟨uuidGen uid 1, iid, DiagnosticStatus.pending, now, now, none, none, none, [], [], []⟩ :=
    getA_setA_self _ _ _
  have s1 := update_report_status_getA _ _ "in_progress" DiagnosticStatus.in_progress now _ s0 rfl
  have s2 := set_report_root_cause_getA _ (uuidGen uid 1)
    "Database connection timeout due to network latency spike" ((92 : ℚ)/100) now _ s1
  obtain ⟨r3, e3, rc3, conf3, ev3⟩ := addEvidences_getA
    (([JValue.str "Multiple connection timeout errors in application logs"] ++ extra)
      ++ [.str "Errors coincide with period of increased system load"]) _ _ _ now s2
  obtain ⟨r4, e4, rc4, conf4, ev4⟩ := addActions_getA
    (actionsFor "Database connection timeout due to network latency spike") _ _ _ now e3
  obtain ⟨r5, e5, rc5, conf5, ev5⟩ := addReferences_getA arts _ _ _ now e4
  have s6 := update_report_status_getA _ _ "completed" DiagnosticStatus.completed now _ e5 rfl
  have hrun : diagProcess mcp incidents reports uid now t msg
      = .ok (((t.update_state TaskState.working now).add_message
                ((A2AMessage.add_text_part ⟨uuidGen uid 0, "agent", []⟩ (uuidGen uid 2)
                    ("Analysis complete for incident " ++ iid)).add_json_part (uuidGen uid 3)
                  (.obj [("diagnostic_report", optReportJ (get_report_by_id
                    (update_report_status (addReferences (addActions (addEvidences
                      (set_report_root_cause (update_report_status (setA reports (uuidGen uid 1)
                        ⟨uuidGen uid 1, iid, DiagnosticStatus.pending, now, now,
                         none, none, none, [], [], []⟩)
                        (uuidGen uid 1) "in_progress" now).2 (uuidGen uid 1)
                        "Database connection timeout due to network latency spike"
                        ((92 : ℚ)/100) now).2
                      (uuidGen uid 1)
                      (([JValue.str "Multiple connection timeout errors in application logs"]
                         ++ extra)
                        ++ [.str "Errors coincide with period of increased system load"]) now)
                      (uuidGen uid 1)
                      (actionsFor "Database connection timeout due to network latency spike") now)
                      (uuidGen uid 1) arts now)
                      (uuidGen uid 1) "completed" now).2
                    (uuidGen uid 1)))]))
                now).update_state TaskState.completed now,
             ((add_incident_note incidents iid
                 (.str ("Diagnostic analysis completed. Root cause: "
                   ++ "Database connection timeout due to network latency spike")) now).2,
              (update_report_status (addReferences (addActions (addEvidences
                (set_report_root_cause (update_report_status (setA reports (uuidGen uid 1)
                  ⟨uuidGen uid 1, iid, DiagnosticStatus.pending, now, now,
                   none, none, none, [], [], []⟩)
                  (uuidGen uid 1) "in_progress" now).2 (uuidGen uid 1)
                  "Database connection timeout due to network latency spike"
                  ((92 : ℚ)/100) now).2
                (uuidGen uid 1)
                (([JValue.str "Multiple connection timeout errors in application logs"]
                   ++ extra)
                  ++ [.str "Errors coincide with period of increased system load"]) now)
                (uuidGen uid 1)
                (actionsFor "Database connection timeout due to network latency spike") now)
                (uuidGen uid 1) arts now)
                (uuidGen uid 1) "completed" now).2),
             [TaskState.working, TaskState.completed]) := by
    unfold diagProcess
    rw [hrespond]
    simp only [diagAnalyze, create_diagnostic_report, hlog, hsys, hkb,
      logPhase_timeout pats hpat, except_bind_ok, hout, hgen, harts]
  have hrc : (DiagnosticReport.update_status r5 DiagnosticStatus.completed now).root_cause
      = some "Database connection timeout due to network latency spike" := by
    have hproj : (DiagnosticReport.update_status r5 DiagnosticStatus.completed now).root_cause
        = r5.root_cause := rfl
    rw [hproj, rc5, rc4, rc3]
  have hconf : (DiagnosticReport.update_status r5 DiagnosticStatus.completed now).confidence
      = some ((92 : ℚ)/100) := by
    have hproj : (DiagnosticReport.update_status r5 DiagnosticStatus.completed now).confidence
        = r5.confidence := rfl
    rw [hproj, conf5, conf4, conf3]
  have hev : (DiagnosticReport.update_status r5 DiagnosticStatus.completed now).evidence ≠ [] := by
    have hproj : (DiagnosticReport.update_status r5 DiagnosticStatus.completed now).evidence
        = r5.evidence := rfl
    rw [hproj, ev5, ev4, ev3]
    simp
  exact ⟨_, _, _, DiagnosticReport.update_status r5 DiagnosticStatus.completed now,
    hrun, s6,
    ⟨"Database connection timeout due to network latency spike", hrc, rfl⟩, hconf, hev⟩

/-- A tool-host oracle for the closed C8 run: the log analyzer reports one
pattern containing the phrase, the other tools answer an empty dict. -/
def c8mcp : String → JValue → JValue := fun tool_id _ =>
  if tool_id = "log-analyzer" then
    .obj [("status", .str "success"),
          ("data", .obj [("log_patterns", .arr (["Connection timeout on db"].map .str))])]
  else .obj []

/-- Claim C8, witness: a concrete analyze run over the stored incident `i1`
yields a report with the database-connection-timeout root cause, confidence
0.92 and non-empty evidence. -/
theorem c8_witness :
    ∃ t' st' tr r,
      diagProcess c8mcp [("i1", sampleIncident)] [] 0 0
          ⟨"t", TaskState.submitted, [], [], 0, 0⟩
          ⟨"m", "user",
            [⟨"p", PartType.json,
              .obj [("analyze_incident", .obj [("incident_id", .str "i1")])]⟩]⟩
        = .ok (t', st', tr) ∧
      getA st'.2 (uuidGen 0 1) = some r ∧
      (∃ rc, r.root_cause = some rc ∧ strHasSub rc "Database connection timeout" = true) ∧
      r.confidence = some ((92 : ℚ)/100) ∧
      r.evidence ≠ [] :=
  c8_connection_timeout_diagnosis c8mcp [("i1", sampleIncident)] [] 0 0
    ⟨"t", TaskState.submitted, [], [], 0, 0⟩ "i1" sampleIncident
    ⟨"m", "user",
      [⟨"p", PartType.json,
        .obj [("analyze_incident", .obj [("incident_id", .str "i1")])]⟩]⟩
    ["Connection timeout on db"] (.obj []) (.obj [])
    rfl rfl (fun _ => rfl) (by decide) (fun _ => rfl) (fun _ => rfl)
    ⟨_, rfl⟩ ⟨_, rfl⟩
